import Mathlib

/-!
Verification of the prediction-market edge-detection / position-sizing core
(`agents/trading/edge_model.py`, `agents/trading/position_sizing.py`,
`agents/trading/bracket_strategy.py`, `agents/trading/api_client.py`).

Modelling conventions:
* Python floats are modelled as exact rationals (`ℚ`).
* The wall clock consulted by `Market.days_to_resolution`
  (`datetime.now(timezone.utc)`) is made an explicit parameter `now : ℤ`;
  dates are modelled at day granularity, matching the code's use of
  `timedelta.days`.
* Python reason strings built with f-string interpolation are modelled as an
  inductive type whose constructors carry the interpolated values; each
  constructor's doc comment quotes the source format string.  Constant strings
  (confidence levels, warnings, actions) are kept as string literals.
* `x or y` on numbers/None in Python coalesces both `None` and `0`; the
  embedding reproduces this (see `daysOr999`, `truthyQ`).
-/

/-! ## String helpers: Python's `in` and `str.lower` -/

/-- `charListStartsWith needle l` — does `l` start with `needle`? -/
def charListStartsWith : List Char → List Char → Bool
  | [], _ => true
  | _ :: _, [] => false
  | c :: cs, d :: ds => c == d && charListStartsWith cs ds

/-- `charListContains needle l` — does `needle` occur contiguously in `l`?
Mirrors Python's `needle in l` on strings (an empty needle is contained). -/
def charListContains (needle : List Char) : List Char → Bool
  | [] => charListStartsWith needle []
  | l@(_ :: rest) => charListStartsWith needle l || charListContains needle rest

/-- Python `needle in haystack` for strings. -/
def strContains (haystack needle : String) : Bool :=
  charListContains needle.data haystack.data

/-- Python `s.lower()` (ASCII-adequate, as in the source's keyword matching). -/
def strLower (s : String) : String := String.mk (s.data.map Char.toLower)

/-! ## Sports detection (`edge_model.py` lines 26-56) -/

/-- `SPORTS_KEYWORDS` from `edge_model.py`. -/
def SPORTS_KEYWORDS : List String :=
  [ "super bowl", "world series", "world cup", "stanley cup", "nba finals",
    "championship", "champion", "playoffs", "win the",
    "nfl", "nba", "mlb", "nhl", "mls", "premier league", "la liga",
    "mvp", "player prop", "score", "touchdown", "home run", "goal",
    "vs", "versus", "beat", "defeat",
    "49ers", "bears", "bengals", "bills", "broncos", "browns", "buccaneers",
    "cardinals", "chargers", "chiefs", "colts", "commanders", "cowboys",
    "dolphins", "eagles", "falcons", "giants", "jaguars", "jets", "lions",
    "packers", "panthers", "patriots", "raiders", "rams", "ravens", "saints",
    "seahawks", "steelers", "texans", "titans", "vikings" ]

/-- `is_sports_market`: any sports keyword occurs in the lowercased question. -/
def is_sports_market (question : String) : Bool :=
  SPORTS_KEYWORDS.any (fun kw => strContains (strLower question) kw)

/-- `is_super_bowl_market`: `"super bowl" in question.lower()`. -/
def is_super_bowl_market (question : String) : Bool :=
  strContains (strLower question) "super bowl"

/-! ## Sanity caps (`apply_sanity_caps`, `edge_model.py` lines 62-115) -/

/-- The `reason` string returned by `apply_sanity_caps` (and the `cap_reason`
stored by `analyze_edge`).  `none_` is the empty string `""`; the other
constructors carry the interpolated values of the source f-strings. -/
inductive CapReason where
  /-- `""` — no cap applied. -/
  | none_ : CapReason
  /-- `f"Capped from {original_prob*100:.0f}% (high-vol market, max 20% deviation)"` -/
  | highVolCap (original : ℚ) : CapReason
  /-- `f"Sports cap: {original_prob*100:.0f}%→{model_prob*100:.0f}% (championship market)"` -/
  | sportsChampionshipCap (original new : ℚ) : CapReason
  /-- `f"Sports cap: {original_prob*100:.0f}%→{model_prob*100:.0f}% (max +10% over market)"` -/
  | sportsMaxDeviationCap (original new : ℚ) : CapReason
  /-- `f"Extreme price cap: {original_prob*100:.0f}%→{model_prob*100:.0f}%"` -/
  | extremePriceCap (original new : ℚ) : CapReason
  /-- `"Super Bowl market - automatic skip"` (set by the guardrail return). -/
  | superBowlSkip : CapReason
deriving DecidableEq

/-- Rule 1 of `apply_sanity_caps`: high-volume markets, max 20% deviation. -/
def capRule1 (original model_prob market_prob total_volume : ℚ)
    (reason : CapReason) : ℚ × CapReason :=
  if total_volume > 100000 then
    let min_allowed := max (1/100) (market_prob - 1/5)
    let max_allowed := min (99/100) (market_prob + 1/5)
    if model_prob < min_allowed then (min_allowed, CapReason.highVolCap original)
    else if model_prob > max_allowed then (max_allowed, CapReason.highVolCap original)
    else (model_prob, reason)
  else (model_prob, reason)

/-- Rule 2 of `apply_sanity_caps`: sports championship markets. -/
def capRule2 (original model_prob market_prob : ℚ) (question : String)
    (reason : CapReason) : ℚ × CapReason :=
  if is_sports_market question = true then
    if is_super_bowl_market question = true ∨
        strContains (strLower question) "championship" = true then
      let max_allowed := min (99/100) (market_prob + 1/10)
      if market_prob < 2/5 ∧ model_prob > 1/2 then
        (min (1/2) (market_prob + 1/10),
          CapReason.sportsChampionshipCap original (min (1/2) (market_prob + 1/10)))
      else if model_prob > max_allowed then
        (max_allowed, CapReason.sportsMaxDeviationCap original max_allowed)
      else (model_prob, reason)
    else (model_prob, reason)
  else (model_prob, reason)

/-- Rule 3 of `apply_sanity_caps`: extreme prices (<5¢ or >95¢). -/
def capRule3 (original model_prob market_prob : ℚ)
    (reason : CapReason) : ℚ × CapReason :=
  if market_prob < 1/20 ∨ market_prob > 19/20 then
    let min_allowed := max (1/100) (market_prob - 1/20)
    let max_allowed := min (99/100) (market_prob + 1/20)
    if model_prob < min_allowed ∨ model_prob > max_allowed then
      (max min_allowed (min max_allowed model_prob),
        CapReason.extremePriceCap original (max min_allowed (min max_allowed model_prob)))
    else (model_prob, reason)
  else (model_prob, reason)

/-- `apply_sanity_caps(model_prob, market_prob, total_volume, question)`:
the three rules applied in sequence, each operating on the current value;
a rule that fires overwrites the reason. -/
def apply_sanity_caps (model_prob market_prob total_volume : ℚ)
    (question : String) : ℚ × CapReason :=
  let r1 := capRule1 model_prob model_prob market_prob total_volume CapReason.none_
  let r2 := capRule2 model_prob r1.1 market_prob question r1.2
  capRule3 model_prob r2.1 market_prob r2.2

/-! ## Market data model (`api_client.py`, class `Market`) -/

/-- Validated market snapshot (`api_client.py` lines 70-123).  Dates are
modelled at day granularity (`end_date` in days on some fixed epoch), since
the code only ever consumes `timedelta.days`. -/
structure Market where
  id : String
  question : String
  description : String := ""
  outcomes : List String
  outcome_prices : List ℚ
  volume : ℚ := 0
  volume_24h : ℚ := 0
  end_date : Option ℤ := none
  closed : Bool := false
  active : Bool := true
  slug : String := ""
deriving DecidableEq

/-- `Market.yes_price`: `outcome_prices[0] if len > 0 else 0`. -/
def Market.yes_price (m : Market) : ℚ :=
  match m.outcome_prices with
  | p :: _ => p
  | [] => 0

/-- `Market.no_price`: `outcome_prices[1] if len > 1 else 0`. -/
def Market.no_price (m : Market) : ℚ :=
  match m.outcome_prices with
  | _ :: p :: _ => p
  | _ => 0

/-- `Market.days_to_resolution`: `max(0, (end - now).days)` when an end date
exists, else `None`.  The hidden call to `datetime.now(timezone.utc)` is the
explicit parameter `now`. -/
def Market.days_to_resolution (m : Market) (now : ℤ) : Option ℤ :=
  m.end_date.map (fun e => max 0 (e - now))

/-- `market.days_to_resolution or 999` as written in `edge_model.py` line 289
and `position_sizing.py` line 110.  Python's `or` coalesces both `None` and
the integer `0` (both falsy) to 999. -/
def daysOr999 (m : Market) (now : ℤ) : ℤ :=
  match m.days_to_resolution now with
  | none => 999
  | some d => if d = 0 then 999 else d

/-! ## Edge detection (`edge_model.py` lines 118-404) -/

/-- `TradeAction` enum. -/
inductive TradeAction where
  | BUY_YES : TradeAction
  | BUY_NO : TradeAction
  | NO_TRADE : TradeAction
deriving DecidableEq

/-- `EdgeConfig` dataclass with its default values. -/
structure EdgeConfig where
  min_edge_percent : ℚ := 5
  min_edge_short_term : ℚ := 8
  min_edge_sports : ℚ := 15
  short_term_days : ℤ := 14
  expected_slippage : ℚ := 1
  min_roi_short_term : ℚ := 10
  relaxed_mode : Bool := false
  limit_order_discount : ℚ := 2/100
  apply_sanity_caps : Bool := true
  max_edge_high_volume : ℚ := 30
deriving DecidableEq

/-- The `reason` string of an `EdgeAnalysis`.  Interpolated f-strings are
modelled as constructors carrying the interpolated values. -/
inductive Reason where
  /-- `"No significant edge detected"` (initial value, always overwritten). -/
  | noSignificantEdge : Reason
  /-- `"Sports miscalibration guardrail triggered (Super Bowl)"`. -/
  | superBowlGuardrail : Reason
  /-- `f"Implausible {max(yes_edge, no_edge):.1f}% edge in ${total_volume/1e6:.1f}M volume market"` -/
  | implausibleEdge (maxEdge volume : ℚ) : Reason
  /-- `f"YES edge {eff:.1f}% but ROI {roi:.1f}% < {req:.1f}% required for short-term"` -/
  | yesRoiShortfall (edge roi required : ℚ) : Reason
  /-- `f"NO edge {eff:.1f}% but ROI {roi:.1f}% < {req:.1f}% required for short-term"` -/
  | noRoiShortfall (edge roi required : ℚ) : Reason
  /-- `f"YES undervalued by {best:.1f}% (model: {model*100:.1f}%, market: {mkt*100:.1f}%)"` -/
  | yesUndervalued (edge model market : ℚ) : Reason
  /-- `f"NO undervalued by {best:.1f}% (model: {model*100:.1f}%, market: {mkt*100:.1f}%)"` -/
  | noUndervalued (edge model market : ℚ) : Reason
  /-- `f"Edge too small: {max:.1f}% < {req:.1f}% required"` -/
  | edgeTooSmall (maxEdge required : ℚ) : Reason
  /-- `"Market fairly priced (model ≈ market)"` -/
  | fairlyPriced : Reason
deriving DecidableEq

/-- Is the reason one of the two short-term-ROI rejection messages? -/
def Reason.citesRoiShortfall : Reason → Bool
  | .yesRoiShortfall _ _ _ => true
  | .noRoiShortfall _ _ _ => true
  | _ => false

/-- `EdgeAnalysis` dataclass. -/
structure EdgeAnalysis where
  market : Market
  model_yes_prob : ℚ
  model_no_prob : ℚ
  market_yes_price : ℚ
  market_no_price : ℚ
  yes_edge : ℚ
  no_edge : ℚ
  recommended_action : TradeAction
  edge_percent : ℚ
  meets_threshold : Bool
  reason : Reason
  target_price : ℚ := 0
  potential_roi : ℚ := 0
  confidence : String := "medium"
  is_sports : Bool := false
  was_capped : Bool := false
  cap_reason : CapReason := CapReason.none_
  warning : String := ""
deriving DecidableEq

/-- Input normalization (`analyze_edge` lines 216-223): a probability given
above 1 is read as a percentage. -/
def normProb (p : ℚ) : ℚ := if p > 1 then p / 100 else p

/-- The (probability, cap reason) pair `analyze_edge` works with after the
sanity-cap step (lines 242-253): the caps run only when the config enables
them (default on). -/
def cappedYes (cfg : EdgeConfig) (m : Market) (model_yes_prob : ℚ) : ℚ × CapReason :=
  if cfg.apply_sanity_caps then
    apply_sanity_caps (normProb model_yes_prob) m.yes_price m.volume m.question
  else (normProb model_yes_prob, CapReason.none_)

/-- The model YES probability used by `analyze_edge` after normalization and
sanity caps. -/
def modelYes (cfg : EdgeConfig) (m : Market) (model_yes_prob : ℚ) : ℚ :=
  (cappedYes cfg m model_yes_prob).1

/-- The model NO probability used by `analyze_edge`: the normalized caller
value (or `1 - yes` when omitted), recomputed as `1 - capped yes` whenever a
cap fired (lines 220-223 and 250-252). -/
def modelNo (cfg : EdgeConfig) (m : Market) (model_yes_prob : ℚ)
    (model_no_prob : Option ℚ) : ℚ :=
  if (cappedYes cfg m model_yes_prob).2 = CapReason.none_ then
    match model_no_prob with
    | none => 1 - normProb model_yes_prob
    | some v => normProb v
  else 1 - modelYes cfg m model_yes_prob

/-- `yes_edge = (model_yes_prob - market_yes) * 100` (line 283). -/
def yesEdge (cfg : EdgeConfig) (m : Market) (model_yes_prob : ℚ) : ℚ :=
  (modelYes cfg m model_yes_prob - m.yes_price) * 100

/-- `no_edge = (model_no_prob - market_no) * 100` (line 284). -/
def noEdge (cfg : EdgeConfig) (m : Market) (model_yes_prob : ℚ)
    (model_no_prob : Option ℚ) : ℚ :=
  (modelNo cfg m model_yes_prob model_no_prob - m.no_price) * 100

/-- The required edge threshold (lines 293-300): sports beats short-term
beats the base threshold. -/
def requiredEdge (cfg : EdgeConfig) (m : Market) (now : ℤ) : ℚ :=
  if is_sports_market m.question = true then cfg.min_edge_sports
  else if daysOr999 m now < cfg.short_term_days then cfg.min_edge_short_term
  else cfg.min_edge_percent

/-- Simple ROI `(model - price) / price * 100`, 0 when the price is 0
(lines 335-336). -/
def simpleRoi (model price : ℚ) : ℚ :=
  if price > 0 then (model - price) / price * 100 else 0

/-- The side-selection step of `analyze_edge` (lines 338-371): the chosen
`(action, best_edge, target_price, potential_roi, reason)`. -/
def edgeSelection (cfg : EdgeConfig) (now : ℤ) (market : Market)
    (model_yes_prob : ℚ) (model_no_prob : Option ℚ) :
    TradeAction × ℚ × ℚ × ℚ × Reason :=
  let market_yes := market.yes_price
  let market_no := market.no_price
  let myp := modelYes cfg market model_yes_prob
  let mnp := modelNo cfg market model_yes_prob model_no_prob
  let required_edge := requiredEdge cfg market now
  let is_short_term := daysOr999 market now < cfg.short_term_days
  let effective_yes_edge := yesEdge cfg market model_yes_prob - cfg.expected_slippage
  let effective_no_edge := noEdge cfg market model_yes_prob model_no_prob - cfg.expected_slippage
  let yes_roi := simpleRoi myp market_yes
  let no_roi := simpleRoi mnp market_no
  if effective_yes_edge ≥ required_edge ∧ effective_yes_edge > effective_no_edge then
    if is_short_term ∧ yes_roi < cfg.min_roi_short_term then
      (TradeAction.NO_TRADE, 0, 0, 0,
        Reason.yesRoiShortfall effective_yes_edge yes_roi cfg.min_roi_short_term)
    else
      (TradeAction.BUY_YES, effective_yes_edge,
        market_yes * (1 - cfg.limit_order_discount), yes_roi,
        Reason.yesUndervalued effective_yes_edge myp market_yes)
  else if effective_no_edge ≥ required_edge ∧ effective_no_edge > effective_yes_edge then
    if is_short_term ∧ no_roi < cfg.min_roi_short_term then
      (TradeAction.NO_TRADE, 0, 0, 0,
        Reason.noRoiShortfall effective_no_edge no_roi cfg.min_roi_short_term)
    else
      (TradeAction.BUY_NO, effective_no_edge,
        market_no * (1 - cfg.limit_order_discount), no_roi,
        Reason.noUndervalued effective_no_edge mnp market_no)
  else if max effective_yes_edge effective_no_edge > 0 then
    (TradeAction.NO_TRADE, 0, 0, 0,
      Reason.edgeTooSmall (max effective_yes_edge effective_no_edge) required_edge)
  else
    (TradeAction.NO_TRADE, 0, 0, 0, Reason.fairlyPriced)

/-- The confidence level (lines 373-383), including the sports downgrade. -/
def edgeConfidence (is_sports : Bool) (best_edge : ℚ) : String :=
  let conf0 := if best_edge ≥ 15 then "high" else if best_edge ≥ 10 then "medium" else "low"
  if is_sports = true ∧ conf0 ≠ "low" then "low" else conf0

/-- `EdgeDetector.analyze_edge` (lines 199-404).  `now` is the hidden
`datetime.now(timezone.utc)` read by `market.days_to_resolution`. -/
def analyze_edge (cfg : EdgeConfig) (now : ℤ) (market : Market)
    (model_yes_prob : ℚ) (model_no_prob : Option ℚ) : EdgeAnalysis :=
  let market_yes := market.yes_price
  let market_no := market.no_price
  let is_sports := is_sports_market market.question
  let is_super_bowl := is_super_bowl_market market.question
  let myp := modelYes cfg market model_yes_prob
  let cap_reason := (cappedYes cfg market model_yes_prob).2
  let mnp := modelNo cfg market model_yes_prob model_no_prob
  let was_capped := if cap_reason = CapReason.none_ then false else true
  -- Super Bowl guardrail (lines 258-280): immediate NO_TRADE short-circuit.
  if is_super_bowl = true ∧ (1/5 : ℚ) < |myp - market_yes| then
    { market := market, model_yes_prob := myp, model_no_prob := mnp,
      market_yes_price := market_yes, market_no_price := market_no,
      yes_edge := 0, no_edge := 0, recommended_action := TradeAction.NO_TRADE,
      edge_percent := 0, meets_threshold := false,
      reason := Reason.superBowlGuardrail, target_price := 0, potential_roi := 0,
      confidence := "low", is_sports := true, was_capped := true,
      cap_reason := CapReason.superBowlSkip,
      warning := "⚠️ Sports markets have high miscalibration risk" }
  else
    let yes_edge := yesEdge cfg market model_yes_prob
    let no_edge := noEdge cfg market model_yes_prob model_no_prob
    let warning := if is_sports = true then "⚠️ Sports market - higher risk of miscalibration" else ""
    -- High-volume plausibility guardrail (lines 305-328).
    if market.volume > 500000 ∧ max yes_edge no_edge > cfg.max_edge_high_volume then
      { market := market, model_yes_prob := myp, model_no_prob := mnp,
        market_yes_price := market_yes, market_no_price := market_no,
        yes_edge := yes_edge, no_edge := no_edge,
        recommended_action := TradeAction.NO_TRADE, edge_percent := 0,
        meets_threshold := false,
        reason := Reason.implausibleEdge (max yes_edge no_edge) market.volume,
        target_price := 0, potential_roi := 0, confidence := "low",
        is_sports := is_sports, was_capped := was_capped,
        cap_reason := cap_reason,
        warning := "High-volume markets are efficiently priced" }
    else
      let sel := edgeSelection cfg now market model_yes_prob model_no_prob
      { market := market, model_yes_prob := myp, model_no_prob := mnp,
        market_yes_price := market_yes, market_no_price := market_no,
        yes_edge := yes_edge, no_edge := no_edge, recommended_action := sel.1,
        edge_percent := sel.2.1,
        meets_threshold := if sel.1 = TradeAction.NO_TRADE then false else true,
        reason := sel.2.2.2.2, target_price := sel.2.2.1,
        potential_roi := sel.2.2.2.1,
        confidence := edgeConfidence is_sports sel.2.1,
        is_sports := is_sports, was_capped := was_capped,
        cap_reason := cap_reason, warning := warning }

/-! ## Position sizing (`position_sizing.py`) -/

/-- `PositionConfig` dataclass with its default values. -/
structure PositionConfig where
  max_position_percent : ℚ := 2
  max_short_term_percent : ℚ := 1
  short_term_days : ℤ := 14
  max_concurrent_positions : ℕ := 5
  max_deployed_capital : ℚ := 20
  min_position_usd : ℚ := 1
  kelly_fraction : ℚ := 1/4
deriving DecidableEq

/-- The `reason` string of a `PositionRecommendation`. -/
inductive PosReason where
  /-- `analysis.reason`, carried through unchanged on a below-threshold edge. -/
  | fromAnalysis (r : Reason) : PosReason
  /-- `f"Max positions reached ({cur}/{max})"` -/
  | maxPositionsReached (cur maxPositions : ℕ) : PosReason
  /-- `f"Max capital deployed ({pct:.1f}% >= {cap}%)"` -/
  | maxCapitalDeployed (pct cap : ℚ) : PosReason
  /-- `f"Position too small: ${usd:.2f} < ${min:.2f} min"` -/
  | positionTooSmall (usd minUsd : ℚ) : PosReason
  /-- `f"Edge {edge:.1f}% detected on {action}"` -/
  | edgeDetected (edge : ℚ) (action : TradeAction) : PosReason
deriving DecidableEq

/-- `PositionRecommendation` dataclass. -/
structure PositionRecommendation where
  should_trade : Bool
  position_percent : ℚ
  position_usd : ℚ
  reason : PosReason
  edge_percent : ℚ
  expected_roi : ℚ
  risk_level : String
deriving DecidableEq

/-- The state held by a `PositionSizer`. -/
structure PositionSizer where
  bankroll : ℚ
  current_positions : ℕ := 0
  deployed_capital : ℚ := 0
  config : PositionConfig := {}
deriving DecidableEq

/-- Python 3 `round(x, ndigits)`: round half to even at `ndigits` decimal
places (modelled exactly on rationals). -/
def pyRound (x : ℚ) (ndigits : ℕ) : ℚ :=
  ((if x * 10 ^ ndigits - ⌊x * 10 ^ ndigits⌋ < 1/2 then ⌊x * 10 ^ ndigits⌋
    else if 1/2 < x * 10 ^ ndigits - ⌊x * 10 ^ ndigits⌋ then ⌊x * 10 ^ ndigits⌋ + 1
    else if ⌊x * 10 ^ ndigits⌋ % 2 = 0 then ⌊x * 10 ^ ndigits⌋
    else ⌊x * 10 ^ ndigits⌋ + 1 : ℤ) : ℚ) / 10 ^ ndigits

/-- `odds = (1 / price) - 1 if price > 0 else 0`
(`position_sizing.py` lines 123 and 126). -/
def oddsOf (price : ℚ) : ℚ := if price > 0 then 1 / price - 1 else 0

/-- The dampened Kelly percentage (`position_sizing.py` lines 129-134):
`f* = (p*b - (1-p)) / b` clamped at 0, times `kelly_fraction`, times 100;
0 when the odds are not positive. -/
def kellyPercent (cfg : PositionConfig) (win_prob odds : ℚ) : ℚ :=
  if odds > 0 then
    max 0 ((win_prob * odds - (1 - win_prob)) / odds) * cfg.kelly_fraction * 100
  else 0

/-- `expected_roi = ((expected_payout - entry_price) / entry_price) * 100`
guarded for a zero entry price (`position_sizing.py` line 160). -/
def expectedRoiOf (expected_payout entry_price : ℚ) : ℚ :=
  if entry_price > 0 then (expected_payout - entry_price) / entry_price * 100 else 0

/-- `PositionSizer.calculate_position` (`position_sizing.py` lines 63-170).
`now` is the hidden clock read by `analysis.market.days_to_resolution`. -/
def calculate_position (s : PositionSizer) (now : ℤ)
    (analysis : EdgeAnalysis) : PositionRecommendation :=
  if analysis.meets_threshold = false then
    { should_trade := false, position_percent := 0, position_usd := 0,
      reason := PosReason.fromAnalysis analysis.reason,
      edge_percent := analysis.edge_percent, expected_roi := 0, risk_level := "N/A" }
  else if s.current_positions ≥ s.config.max_concurrent_positions then
    { should_trade := false, position_percent := 0, position_usd := 0,
      reason := PosReason.maxPositionsReached s.current_positions s.config.max_concurrent_positions,
      edge_percent := analysis.edge_percent, expected_roi := 0, risk_level := "N/A" }
  else
    let deployed_percent := if s.bankroll > 0 then s.deployed_capital / s.bankroll * 100 else 100
    if deployed_percent ≥ s.config.max_deployed_capital then
      { should_trade := false, position_percent := 0, position_usd := 0,
        reason := PosReason.maxCapitalDeployed deployed_percent s.config.max_deployed_capital,
        edge_percent := analysis.edge_percent, expected_roi := 0, risk_level := "N/A" }
    else
      let days := daysOr999 analysis.market now
      let max_position := if days < s.config.short_term_days
        then s.config.max_short_term_percent else s.config.max_position_percent
      let risk_level := if days < s.config.short_term_days
        then "HIGH (short-term)" else "MODERATE"
      let win_prob := if analysis.recommended_action = TradeAction.BUY_YES
        then analysis.model_yes_prob else analysis.model_no_prob
      let odds := if analysis.recommended_action = TradeAction.BUY_YES
        then oddsOf analysis.market_yes_price else oddsOf analysis.market_no_price
      let kelly_percent := kellyPercent s.config win_prob odds
      let position_percent := min kelly_percent max_position
      let position_usd := position_percent / 100 * s.bankroll
      if position_usd < s.config.min_position_usd then
        { should_trade := false, position_percent := 0, position_usd := 0,
          reason := PosReason.positionTooSmall position_usd s.config.min_position_usd,
          edge_percent := analysis.edge_percent, expected_roi := 0, risk_level := risk_level }
      else
        let entry_price := if analysis.recommended_action = TradeAction.BUY_YES
          then analysis.market_yes_price else analysis.market_no_price
        let expected_payout := if analysis.recommended_action = TradeAction.BUY_YES
          then analysis.model_yes_prob * 1 else analysis.model_no_prob * 1
        let expected_roi := expectedRoiOf expected_payout entry_price
        { should_trade := true,
          position_percent := pyRound position_percent 2,
          position_usd := pyRound position_usd 2,
          reason := PosReason.edgeDetected analysis.edge_percent analysis.recommended_action,
          edge_percent := analysis.edge_percent,
          expected_roi := pyRound expected_roi 1,
          risk_level := risk_level }

/-! ## Bracket strategies (`bracket_strategy.py`) -/

/-- Python truthiness of an optional number: `None` and `0` are falsy.
Used to model `x or y or 0` chains on bounds. -/
def truthyQ : Option ℚ → Option ℚ
  | some v => if v = 0 then none else some v
  | none => none

/-- `BracketMarket` dataclass. -/
structure BracketMarket where
  market : Market
  bracket_label : String
  lower_bound : Option ℚ
  upper_bound : Option ℚ
  yes_price : ℚ
  no_price : ℚ
  model_prob : Option ℚ := none
  recommended_action : Option String := none
  edge_percent : ℚ := 0
deriving DecidableEq

/-- One entry of `recommended_trades`
(the `{'bracket', 'action', 'price', 'edge', 'cost', 'payout'}` dict). -/
structure BracketTrade where
  bracket : BracketMarket
  action : String
  price : ℚ
  edge : ℚ
  cost : ℚ
  payout : ℚ
deriving DecidableEq

/-- `BracketStrategy` dataclass. -/
structure BracketStrategy where
  topic : String
  thesis : String
  brackets : List BracketMarket
  recommended_trades : List BracketTrade
  total_cost : ℚ
  max_payout : ℚ
  expected_roi : ℚ
  confidence : String
  resolution_info : String
deriving DecidableEq

/-- `≤` on lower bounds where `none` stands for `float('-inf')`. -/
def lbLtB : Option ℚ → Option ℚ → Bool
  | none, none => false
  | none, some _ => true
  | some _, none => false
  | some a, some b => decide (a < b)

/-- `≤` on upper bounds where `none` stands for `float('inf')`. -/
def ubLeB : Option ℚ → Option ℚ → Bool
  | _, none => true
  | none, some _ => false
  | some a, some b => decide (a ≤ b)

/-- The sort key comparison of `generate_strategy` (lines 225-228):
lexicographic on `(lower_bound or -inf, upper_bound or inf)`.  Python's `or`
sends both `None` and `0` to the infinity default. -/
def bracketKeyLe (x y : BracketMarket) : Bool :=
  lbLtB (truthyQ x.lower_bound) (truthyQ y.lower_bound) ||
    (truthyQ x.lower_bound == truthyQ y.lower_bound &&
      ubLeB (truthyQ x.upper_bound) (truthyQ y.upper_bound))

/-- The model probability used for a bracket (lines 236-241): the forecast
map entry when present (an absent or empty map falls through), else the
bracket's own market YES price. -/
def bModelProb (model_forecast : Option (List (String × ℚ)))
    (b : BracketMarket) : ℚ :=
  match model_forecast with
  | some fc =>
    match fc.lookup b.bracket_label with
    | some v => v
    | none => b.yes_price
  | none => b.yes_price

/-- `yes_edge = (model_prob - bracket.yes_price) * 100` (line 246). -/
def bYesEdge (model_forecast : Option (List (String × ℚ)))
    (b : BracketMarket) : ℚ :=
  (bModelProb model_forecast b - b.yes_price) * 100

/-- `no_edge = ((1 - model_prob) - bracket.no_price) * 100` (lines 249-250). -/
def bNoEdge (model_forecast : Option (List (String × ℚ)))
    (b : BracketMarket) : ℚ :=
  (1 - bModelProb model_forecast b - b.no_price) * 100

/-- The per-bracket body of `generate_strategy`'s loop (lines 235-287):
returns the updated bracket and, when one side's edge reaches the
`min_edge = 5.0` threshold (`YES` checked first), the recommended trade. -/
def bracketEval (model_forecast : Option (List (String × ℚ)))
    (b : BracketMarket) : BracketMarket × Option BracketTrade :=
  let model_prob := bModelProb model_forecast b
  let yes_edge := bYesEdge model_forecast b
  let no_edge := bNoEdge model_forecast b
  if yes_edge ≥ 5 then
    let b' := { b with model_prob := some model_prob,
                       recommended_action := some "BUY_YES", edge_percent := yes_edge }
    (b', some { bracket := b', action := "BUY_YES", price := b.yes_price,
                edge := yes_edge, cost := b.yes_price * 100, payout := 100 })
  else if no_edge ≥ 5 then
    let b' := { b with model_prob := some model_prob,
                       recommended_action := some "BUY_NO", edge_percent := no_edge }
    (b', some { bracket := b', action := "BUY_NO", price := b.no_price,
                edge := no_edge, cost := b.no_price * 100, payout := 100 })
  else ({ b with model_prob := some model_prob }, none)

/-- `b.upper_bound or b.lower_bound or 0` (line 340). -/
def pyOrUpperLower (b : BracketMarket) : ℚ :=
  ((truthyQ b.upper_bound).getD ((truthyQ b.lower_bound).getD 0))

/-- `b.lower_bound or b.upper_bound or 0` (line 347). -/
def pyOrLowerUpper (b : BracketMarket) : ℚ :=
  ((truthyQ b.lower_bound).getD ((truthyQ b.upper_bound).getD 0))

/-- `BracketStrategyGenerator._generate_thesis` (lines 324-357).  The
`float('±inf')` sentinels for an empty side are modelled by case analysis:
whenever a side is empty the comparison chain lands in the "OVER" branch. -/
def thesisOf (trades : List BracketTrade)
    (_all_brackets : List BracketMarket) : String :=
  match trades with
  | [] => "No clear thesis"
  | _ =>
    let yes_trades := trades.filter (fun t => t.action == "BUY_YES")
    let no_trades := trades.filter (fun t => t.action == "BUY_NO")
    match yes_trades.isEmpty, no_trades.isEmpty with
    | false, false =>
      let avg_yes := (yes_trades.map (fun t => pyOrUpperLower t.bracket)).sum / yes_trades.length
      let avg_no := (no_trades.map (fun t => pyOrLowerUpper t.bracket)).sum / no_trades.length
      if avg_yes < avg_no then
        "Betting the UNDER on high scenarios. Model expects outcome in lower ranges."
      else if avg_no < avg_yes then
        "Betting the OVER on low scenarios. Model expects outcome in higher ranges."
      else "Mixed strategy across bracket ranges."
    | _, _ =>
      "Betting the OVER on low scenarios. Model expects outcome in higher ranges."

/-- `BracketStrategyGenerator.generate_strategy` (lines 204-322). -/
def generate_strategy (topic : String) (brackets : List BracketMarket)
    (model_forecast : Option (List (String × ℚ))) : Option BracketStrategy :=
  if brackets.length < 2 then none
  else
    let sorted_brackets := List.insertionSort (fun x y => bracketKeyLe x y = true) brackets
    let evals := sorted_brackets.map (bracketEval model_forecast)
    let updated := evals.map Prod.fst
    let recommended_trades := evals.filterMap Prod.snd
    let total_cost := (recommended_trades.map BracketTrade.cost).sum
    let max_payout := (recommended_trades.map BracketTrade.payout).sum
    if recommended_trades.isEmpty then none
    else
      let avg_wins : ℚ := min (recommended_trades.length : ℚ) 2
      let expected_payout := avg_wins * 100
      let expected_roi := if total_cost > 0 then (expected_payout - total_cost) / total_cost * 100 else 0
      let avg_edge := (recommended_trades.map BracketTrade.edge).sum / recommended_trades.length
      let confidence := if avg_edge ≥ 15 then "High"
        else if avg_edge ≥ 10 then "Medium-High"
        else if avg_edge ≥ 7 then "Medium"
        else "Low"
      some { topic := topic, thesis := thesisOf recommended_trades updated,
             brackets := updated, recommended_trades := recommended_trades,
             total_cost := total_cost, max_payout := max_payout,
             expected_roi := expected_roi, confidence := confidence,
             resolution_info := "Resolution: Early 2026" }

/-! ## Lemmas about the sanity-cap engine -/

/-- A rule that returns the empty reason passed its input through. -/
theorem capRule1_none_pass (o p m v : ℚ) (r : CapReason)
    (h : (capRule1 o p m v r).2 = CapReason.none_) :
    (capRule1 o p m v r).1 = p ∧ r = CapReason.none_ := by
  simp only [capRule1] at h ⊢
  split_ifs at h ⊢ <;> simp_all

/-- A rule that returns the empty reason passed its input through. -/
theorem capRule2_none_pass (o p m : ℚ) (q : String) (r : CapReason)
    (h : (capRule2 o p m q r).2 = CapReason.none_) :
    (capRule2 o p m q r).1 = p ∧ r = CapReason.none_ := by
  simp only [capRule2] at h ⊢
  split_ifs at h ⊢ <;> simp_all

/-- A rule that returns the empty reason passed its input through. -/
theorem capRule3_none_pass (o p m : ℚ) (r : CapReason)
    (h : (capRule3 o p m r).2 = CapReason.none_) :
    (capRule3 o p m r).1 = p ∧ r = CapReason.none_ := by
  simp only [capRule3] at h ⊢
  split_ifs at h ⊢ <;> simp_all

/-- When `apply_sanity_caps` reports no reason, it returned its input
unchanged (no cap fired). -/
theorem caps_none_unchanged (p m v : ℚ) (q : String)
    (h : (apply_sanity_caps p m v q).2 = CapReason.none_) :
    (apply_sanity_caps p m v q).1 = p := by
  unfold apply_sanity_caps at *
  have h3 := capRule3_none_pass p _ m _ h
  have h2 := capRule2_none_pass p _ m q _ h3.2
  have h1 := capRule1_none_pass p p m v CapReason.none_ h2.2
  rw [h3.1, h2.1, h1.1]

/-- Rule 1 on a high-volume market leaves the probability within ±0.20 of the
market price (whether or not it had to clamp), for a valid market price. -/
theorem capRule1_highvol_bounds (o p m v : ℚ) (r : CapReason)
    (hm0 : 0 ≤ m) (hm1 : m ≤ 1) (hv : v > 100000) :
    m - 1/5 ≤ (capRule1 o p m v r).1 ∧ (capRule1 o p m v r).1 ≤ m + 1/5 := by
  simp only [capRule1]
  rw [if_pos hv]
  have hmaxlo : m - 1/5 ≤ max (1/100 : ℚ) (m - 1/5) := le_max_right _ _
  have hmaxhi : max (1/100 : ℚ) (m - 1/5) ≤ m + 1/5 :=
    max_le (by linarith) (by linarith)
  have hminlo : m - 1/5 ≤ min (99/100 : ℚ) (m + 1/5) :=
    le_min (by linarith) (by linarith)
  have hminhi : min (99/100 : ℚ) (m + 1/5) ≤ m + 1/5 := min_le_right _ _
  split_ifs with h1 h2
  · exact ⟨hmaxlo, hmaxhi⟩
  · exact ⟨hminlo, hminhi⟩
  · push_neg at h1 h2
    constructor
    · linarith [le_max_right (1/100 : ℚ) (m - 1/5)]
    · linarith [min_le_right (99/100 : ℚ) (m + 1/5)]

/-- Rule 2 preserves the ±0.20 band around a valid market price. -/
theorem capRule2_preserve_bounds (o p m : ℚ) (q : String) (r : CapReason)
    (_hm0 : 0 ≤ m) (hm1 : m ≤ 1)
    (hp0 : m - 1/5 ≤ p) (hp1 : p ≤ m + 1/5) :
    m - 1/5 ≤ (capRule2 o p m q r).1 ∧ (capRule2 o p m q r).1 ≤ m + 1/5 := by
  simp only [capRule2]
  split_ifs with hs hc hchamp hdev
  · -- championship hard cap fired: result min(1/2, m+1/10), with m < 2/5
    obtain ⟨hm4, _⟩ := hchamp
    refine ⟨le_min (by linarith) (by linarith), ?_⟩
    have := min_le_right (1/2 : ℚ) (m + 1/10)
    linarith
  · -- +10% deviation cap fired: result min(99/100, m+1/10)
    refine ⟨le_min (by linarith) (by linarith), ?_⟩
    have := min_le_right (99/100 : ℚ) (m + 1/10)
    linarith
  · exact ⟨hp0, hp1⟩
  · exact ⟨hp0, hp1⟩
  · exact ⟨hp0, hp1⟩

/-- On an extreme-priced market (valid price), rule 3 always lands (or keeps)
the probability within ±0.05 of the market price. -/
theorem capRule3_extreme_bounds (o p m : ℚ) (r : CapReason)
    (hm0 : 0 ≤ m) (hm1 : m ≤ 1) (hx : m < 1/20 ∨ 19/20 < m) :
    m - 1/20 ≤ (capRule3 o p m r).1 ∧ (capRule3 o p m r).1 ≤ m + 1/20 := by
  simp only [capRule3]
  have hx' : m < 1/20 ∨ m > 19/20 := hx
  rw [if_pos hx']
  have hband : max (1/100 : ℚ) (m - 1/20) ≤ min (99/100 : ℚ) (m + 1/20) :=
    max_le (le_min (by norm_num) (by linarith)) (le_min (by linarith) (by linarith))
  split_ifs with h1
  · constructor
    · have h2 : max (1/100 : ℚ) (m - 1/20) ≤
          max (max (1/100 : ℚ) (m - 1/20)) (min (min (99/100 : ℚ) (m + 1/20)) p) :=
        le_max_left _ _
      have h3 : m - 1/20 ≤ max (1/100 : ℚ) (m - 1/20) := le_max_right _ _
      linarith
    · have h2 : max (max (1/100 : ℚ) (m - 1/20)) (min (min (99/100 : ℚ) (m + 1/20)) p) ≤
          min (99/100 : ℚ) (m + 1/20) := max_le hband (min_le_left _ _)
      have h3 : min (99/100 : ℚ) (m + 1/20) ≤ m + 1/20 := min_le_right _ _
      linarith
  · push_neg at h1
    obtain ⟨hlo, hhi⟩ := h1
    constructor
    · linarith [le_max_right (1/100 : ℚ) (m - 1/20)]
    · linarith [min_le_right (99/100 : ℚ) (m + 1/20)]

/-- Rule 3 preserves the ±0.20 band around a valid market price. -/
theorem capRule3_preserve_bounds (o p m : ℚ) (r : CapReason)
    (hm0 : 0 ≤ m) (hm1 : m ≤ 1)
    (hp0 : m - 1/5 ≤ p) (hp1 : p ≤ m + 1/5) :
    m - 1/5 ≤ (capRule3 o p m r).1 ∧ (capRule3 o p m r).1 ≤ m + 1/5 := by
  by_cases hx : m < 1/20 ∨ m > 19/20
  · have h := capRule3_extreme_bounds o p m r hm0 hm1 hx
    exact ⟨by linarith [h.1], by linarith [h.2]⟩
  · simp only [capRule3]
    rw [if_neg hx]
    exact ⟨hp0, hp1⟩

/-- Invariant carried through the three cap rules: with no reason the value is
still the original; with a reason the value moved strictly toward the market
price — strictly above the original but at most `min(0.99, market+0.05)`, or
strictly below it but at least `max(0.01, market-0.05)`. -/
def CapInv (orig market_prob p : ℚ) (r : CapReason) : Prop :=
  (r = CapReason.none_ → p = orig) ∧
  (r ≠ CapReason.none_ →
    (orig < p ∧ p ≤ min (99/100) (market_prob + 1/20)) ∨
    (p < orig ∧ max (1/100) (market_prob - 1/20) ≤ p))

/-- Rule 1 maintains `CapInv` (valid market price). -/
theorem capRule1_inv (o p m v : ℚ) (r : CapReason) (hm0 : 0 ≤ m) (hm1 : m ≤ 1)
    (h : CapInv o m p r) :
    CapInv o m (capRule1 o p m v r).1 (capRule1 o p m v r).2 := by
  obtain ⟨hnone, hsome⟩ := h
  simp only [capRule1]
  split_ifs with hv hlo hhi
  · -- clamped up to max(0.01, m - 0.2)
    refine ⟨by simp, fun _ => ?_⟩
    left
    refine ⟨?_, max_le (le_min (by norm_num) (by linarith))
      (le_min (by linarith) (by linarith))⟩
    by_cases hr : r = CapReason.none_
    · have hpo := hnone hr
      linarith
    · rcases hsome hr with ⟨h1, _⟩ | ⟨h1, h2⟩
      · linarith
      · exfalso
        have hLm : max (1/100 : ℚ) (m - 1/5) ≤ max (1/100 : ℚ) (m - 1/20) :=
          max_le_max le_rfl (by linarith)
        linarith
  · -- clamped down to min(0.99, m + 0.2)
    refine ⟨by simp, fun _ => ?_⟩
    right
    refine ⟨?_, le_min (max_le (by norm_num) (by linarith))
      (max_le (by linarith) (by linarith))⟩
    by_cases hr : r = CapReason.none_
    · have hpo := hnone hr
      linarith
    · rcases hsome hr with ⟨h1, h2⟩ | ⟨h1, h2⟩
      · exfalso
        have hUm : min (99/100 : ℚ) (m + 1/20) ≤ min (99/100 : ℚ) (m + 1/5) :=
          min_le_min le_rfl (by linarith)
        linarith
      · linarith
  · exact ⟨hnone, hsome⟩
  · exact ⟨hnone, hsome⟩

/-- Rule 2 maintains `CapInv` (valid market price). -/
theorem capRule2_inv (o p m : ℚ) (q : String) (r : CapReason)
    (hm0 : 0 ≤ m) (hm1 : m ≤ 1) (h : CapInv o m p r) :
    CapInv o m (capRule2 o p m q r).1 (capRule2 o p m q r).2 := by
  obtain ⟨hnone, hsome⟩ := h
  simp only [capRule2]
  split_ifs with hs hc hchamp hdev
  · -- championship hard cap: value min(1/2, m + 0.1), with m < 2/5 and p > 1/2
    obtain ⟨hm25, hp12⟩ := hchamp
    refine ⟨by simp, fun _ => ?_⟩
    right
    refine ⟨?_, le_min (max_le (by norm_num) (by linarith))
      (max_le (by linarith) (by linarith))⟩
    have hminle : min (1/2 : ℚ) (m + 1/10) ≤ 1/2 := min_le_left _ _
    by_cases hr : r = CapReason.none_
    · have hpo := hnone hr
      linarith
    · rcases hsome hr with ⟨h1, h2⟩ | ⟨h1, h2⟩
      · exfalso
        have hU : min (99/100 : ℚ) (m + 1/20) ≤ m + 1/20 := min_le_right _ _
        linarith
      · linarith
  · -- +10% deviation cap: value min(0.99, m + 0.1), with p above it
    refine ⟨by simp, fun _ => ?_⟩
    right
    refine ⟨?_, le_min (max_le (by norm_num) (by linarith))
      (max_le (by linarith) (by linarith))⟩
    by_cases hr : r = CapReason.none_
    · have hpo := hnone hr
      linarith
    · rcases hsome hr with ⟨h1, h2⟩ | ⟨h1, h2⟩
      · exfalso
        have hUm : min (99/100 : ℚ) (m + 1/20) ≤ min (99/100 : ℚ) (m + 1/10) :=
          min_le_min le_rfl (by linarith)
        linarith
      · linarith
  · exact ⟨hnone, hsome⟩
  · exact ⟨hnone, hsome⟩
  · exact ⟨hnone, hsome⟩

/-- Rule 3 maintains `CapInv` (valid market price). -/
theorem capRule3_inv (o p m : ℚ) (r : CapReason)
    (hm0 : 0 ≤ m) (hm1 : m ≤ 1) (h : CapInv o m p r) :
    CapInv o m (capRule3 o p m r).1 (capRule3 o p m r).2 := by
  obtain ⟨hnone, hsome⟩ := h
  have hband : max (1/100 : ℚ) (m - 1/20) ≤ min (99/100 : ℚ) (m + 1/20) :=
    max_le (le_min (by norm_num) (by linarith)) (le_min (by linarith) (by linarith))
  simp only [capRule3]
  split_ifs with hx hf
  · refine ⟨by simp, fun _ => ?_⟩
    rcases hf with hpl | hpu
    · -- p below the band: result is max(0.01, m - 0.05)
      have h1 : min (min (99/100 : ℚ) (m + 1/20)) p = p :=
        min_eq_right (le_trans (le_of_lt hpl) hband)
      have hval : max (max (1/100 : ℚ) (m - 1/20)) (min (min (99/100 : ℚ) (m + 1/20)) p)
          = max (1/100 : ℚ) (m - 1/20) := by
        rw [h1]
        exact max_eq_left (le_of_lt hpl)
      left
      refine ⟨?_, by linarith⟩
      by_cases hr : r = CapReason.none_
      · have hpo := hnone hr
        linarith
      · rcases hsome hr with ⟨h1', _⟩ | ⟨h1', h2'⟩
        · linarith
        · exfalso
          linarith
    · -- p above the band: result is min(0.99, m + 0.05)
      have h1 : min (min (99/100 : ℚ) (m + 1/20)) p = min (99/100 : ℚ) (m + 1/20) :=
        min_eq_left (le_of_lt hpu)
      have hval : max (max (1/100 : ℚ) (m - 1/20)) (min (min (99/100 : ℚ) (m + 1/20)) p)
          = min (99/100 : ℚ) (m + 1/20) := by
        rw [h1]
        exact max_eq_right hband
      right
      refine ⟨?_, by linarith⟩
      by_cases hr : r = CapReason.none_
      · have hpo := hnone hr
        linarith
      · rcases hsome hr with ⟨h1', h2'⟩ | ⟨h1', h2'⟩
        · exfalso
          linarith
        · linarith
  · exact ⟨hnone, hsome⟩
  · exact ⟨hnone, hsome⟩

/-- The full cap pipeline satisfies `CapInv` (valid market price). -/
theorem apply_sanity_caps_inv (p m v : ℚ) (q : String)
    (hm0 : 0 ≤ m) (hm1 : m ≤ 1) :
    CapInv p m (apply_sanity_caps p m v q).1 (apply_sanity_caps p m v q).2 := by
  have h0 : CapInv p m p CapReason.none_ :=
    ⟨fun _ => rfl, fun hne => absurd rfl hne⟩
  have h1 := capRule1_inv p p m v CapReason.none_ hm0 hm1 h0
  have h2 := capRule2_inv p _ m q _ hm0 hm1 h1
  have h3 := capRule3_inv p _ m _ hm0 hm1 h2
  simpa [apply_sanity_caps] using h3

/-- **C3**: for every input to `apply_sanity_caps` with a valid market price
(`market_prob ∈ [0,1]`, the data-model invariant for outcome prices): with
`total_volume > 100,000` the returned probability lies within
`[market_prob - 0.20, market_prob + 0.20]`, and with an extreme price
(`market_prob < 0.05` or `> 0.95`) it lies within
`[market_prob - 0.05, market_prob + 0.05]`, even when several cap rules fire
in sequence. -/
theorem C3_sanity_cap_bounds (p m v : ℚ) (q : String)
    (hm0 : 0 ≤ m) (hm1 : m ≤ 1) :
    (v > 100000 →
      m - 1/5 ≤ (apply_sanity_caps p m v q).1 ∧
        (apply_sanity_caps p m v q).1 ≤ m + 1/5) ∧
    (m < 1/20 ∨ 19/20 < m →
      m - 1/20 ≤ (apply_sanity_caps p m v q).1 ∧
        (apply_sanity_caps p m v q).1 ≤ m + 1/20) := by
  constructor
  · intro hv
    have h1 := capRule1_highvol_bounds p p m v CapReason.none_ hm0 hm1 hv
    have h2 := capRule2_preserve_bounds p (capRule1 p p m v CapReason.none_).1 m q
      (capRule1 p p m v CapReason.none_).2 hm0 hm1 h1.1 h1.2
    have h3 := capRule3_preserve_bounds p
      (capRule2 p (capRule1 p p m v CapReason.none_).1 m q (capRule1 p p m v CapReason.none_).2).1 m
      (capRule2 p (capRule1 p p m v CapReason.none_).1 m q (capRule1 p p m v CapReason.none_).2).2
      hm0 hm1 h2.1 h2.2
    simpa [apply_sanity_caps] using h3
  · intro hx
    have hx' : m < 1/20 ∨ m > 19/20 := hx
    have h3 := capRule3_extreme_bounds p
      ((capRule2 p (capRule1 p p m v CapReason.none_).1 m q (capRule1 p p m v CapReason.none_).2).1) m
      ((capRule2 p (capRule1 p p m v CapReason.none_).1 m q (capRule1 p p m v CapReason.none_).2).2)
      hm0 hm1 hx'
    simpa [apply_sanity_caps] using h3

/-- Witness for C3 at a concrete input: a 90% model probability on a
high-volume 50¢ market is pulled back into the ±20% band. -/
theorem C3_sanity_cap_bounds_witness :
    (1:ℚ)/2 - 1/5 ≤ (apply_sanity_caps (9/10) (1/2) 200000 "will btc hit 150k this year?").1 ∧
    (apply_sanity_caps (9/10) (1/2) 200000 "will btc hit 150k this year?").1 ≤ 1/2 + 1/5 :=
  (C3_sanity_cap_bounds (9/10) (1/2) 200000 "will btc hit 150k this year?"
    (by norm_num) (by norm_num)).1 (by norm_num)

/-- On any non-guardrail path, the `was_capped` flag of `analyze_edge` is
exactly "the cap step returned a non-empty reason". -/
theorem analyze_edge_was_capped_iff (cfg : EdgeConfig) (now : ℤ) (mk : Market)
    (mq : ℚ) (mno : Option ℚ)
    (hng : ¬(is_super_bowl_market mk.question = true ∧
      (1/5 : ℚ) < |modelYes cfg mk mq - mk.yes_price|)) :
    ((analyze_edge cfg now mk mq mno).was_capped = true ↔
      (cappedYes cfg mk mq).2 ≠ CapReason.none_) := by
  simp only [analyze_edge]
  rw [if_neg hng]
  by_cases hc : (cappedYes cfg mk mq).2 = CapReason.none_
  · split_ifs <;> simp [hc]
  · split_ifs <;> simp [hc]

/-- **C10**: `apply_sanity_caps` (on a valid market price) returns a non-empty
reason iff the probability it returns differs from the input `model_prob`;
consequently, on the non-guardrail path of `analyze_edge` (with caps enabled),
`was_capped = true` exactly when capping changed the normalized model YES
probability. -/
theorem C10_cap_reason_iff_changed (p m v : ℚ) (q : String)
    (cfg : EdgeConfig) (now : ℤ) (mk : Market) (mq : ℚ) (mno : Option ℚ)
    (hm0 : 0 ≤ m) (hm1 : m ≤ 1)
    (hy0 : 0 ≤ mk.yes_price) (hy1 : mk.yes_price ≤ 1)
    (hcaps : cfg.apply_sanity_caps = true)
    (hng : ¬(is_super_bowl_market mk.question = true ∧
      (1/5 : ℚ) < |modelYes cfg mk mq - mk.yes_price|)) :
    ((apply_sanity_caps p m v q).2 ≠ CapReason.none_ ↔
      (apply_sanity_caps p m v q).1 ≠ p) ∧
    ((analyze_edge cfg now mk mq mno).was_capped = true ↔
      modelYes cfg mk mq ≠ normProb mq) := by
  have main : ∀ (p' m' v' : ℚ) (q' : String), 0 ≤ m' → m' ≤ 1 →
      ((apply_sanity_caps p' m' v' q').2 ≠ CapReason.none_ ↔
        (apply_sanity_caps p' m' v' q').1 ≠ p') := by
    intro p' m' v' q' h0 h1
    obtain ⟨hnone, hsome⟩ := apply_sanity_caps_inv p' m' v' q' h0 h1
    constructor
    · intro hr
      rcases hsome hr with ⟨hlt, _⟩ | ⟨hlt, _⟩
      · exact ne_of_gt hlt
      · exact ne_of_lt hlt
    · intro hval hr
      exact hval (hnone hr)
  refine ⟨main p m v q hm0 hm1, ?_⟩
  rw [analyze_edge_was_capped_iff cfg now mk mq mno hng]
  have hcy : cappedYes cfg mk mq
      = apply_sanity_caps (normProb mq) mk.yes_price mk.volume mk.question := by
    simp [cappedYes, hcaps]
  rw [hcy]
  have := main (normProb mq) mk.yes_price mk.volume mk.question hy0 hy1
  rw [this]
  unfold modelYes
  rw [hcy]

/-- Witness for C10 at a concrete input: on a high-volume 50¢ market a 90%
model probability is capped (reason non-empty, value changed), and
`analyze_edge` reports `was_capped = true` there. -/
theorem C10_cap_reason_iff_changed_witness :
    ((apply_sanity_caps (9/10) (1/2) 200000 "will btc hit 150k this year?").2 ≠ CapReason.none_ ↔
      (apply_sanity_caps (9/10) (1/2) 200000 "will btc hit 150k this year?").1 ≠ 9/10) ∧
    ((analyze_edge {} 0
        { id := "w10", question := "will btc hit 150k this year?",
          outcomes := ["Yes", "No"], outcome_prices := [1/2, 1/2],
          volume := 200000 } (9/10) none).was_capped = true ↔
      modelYes {}
        { id := "w10", question := "will btc hit 150k this year?",
          outcomes := ["Yes", "No"], outcome_prices := [1/2, 1/2],
          volume := 200000 } (9/10) ≠ normProb (9/10)) := by
  apply C10_cap_reason_iff_changed
  · norm_num
  · norm_num
  · show (0:ℚ) ≤ 1/2
    norm_num
  · show (1:ℚ)/2 ≤ 1
    norm_num
  · rfl
  · intro hcontra
    have hsb : is_super_bowl_market "will btc hit 150k this year?" = false := by decide
    rw [hsb] at hcontra
    exact absurd hcontra.1 (by simp)

/-- Every return path of `analyze_edge` carries the post-cap model YES
probability and the matching model NO probability. -/
theorem analyze_edge_model_fields (cfg : EdgeConfig) (now : ℤ) (m : Market)
    (p : ℚ) (q : Option ℚ) :
    (analyze_edge cfg now m p q).model_yes_prob = modelYes cfg m p ∧
    (analyze_edge cfg now m p q).model_no_prob = modelNo cfg m p q := by
  simp only [analyze_edge]
  split_ifs <;> exact ⟨rfl, rfl⟩

/-- When the cap step reports no reason, the model YES probability is just the
normalized input. -/
theorem modelYes_of_none (cfg : EdgeConfig) (m : Market) (p : ℚ)
    (hc : (cappedYes cfg m p).2 = CapReason.none_) :
    modelYes cfg m p = normProb p := by
  unfold modelYes cappedYes at *
  split_ifs at hc ⊢
  · exact caps_none_unchanged _ _ _ _ hc
  · rfl

/-- Test market: a plain non-sports question at 50¢ with moderate volume — no
cap fires on it. -/
def mkPlain : Market :=
  { id := "c1", question := "will agi arrive before 2030?",
    outcomes := ["Yes", "No"], outcome_prices := [1/2, 1/2], volume := 1000 }

/-- Counterexample to **C1** as stated: with an explicitly supplied,
inconsistent `model_no_prob` and no cap firing, the returned probabilities do
not sum to 1 (`0.3 + 0.3 = 0.6`). -/
theorem C1_counterexample :
    (analyze_edge {} 0 mkPlain (3/10) (some (3/10))).model_yes_prob +
      (analyze_edge {} 0 mkPlain (3/10) (some (3/10))).model_no_prob ≠ 1 := by
  obtain ⟨hy, hn⟩ := analyze_edge_model_fields {} 0 mkPlain (3/10) (some (3/10))
  rw [hy, hn]
  have hsp : is_sports_market mkPlain.question = false := by decide
  have hcap : cappedYes {} mkPlain (3/10) = (3/10, CapReason.none_) := by
    norm_num [cappedYes, apply_sanity_caps, capRule1, capRule2, capRule3,
      normProb, mkPlain, Market.yes_price, hsp]
  have hmy : modelYes {} mkPlain (3/10) = 3/10 := by
    simp only [modelYes, hcap]
  have hmn : modelNo {} mkPlain (3/10) (some (3/10)) = 3/10 := by
    simp only [modelNo, hcap, normProb]
    norm_num
  rw [hmy, hmn]
  norm_num

/-- **C1** (amended): the probabilities returned by `analyze_edge` sum to 1
whenever `model_no_prob` is omitted, and whenever a sanity cap actually fired
(the code then recomputes `model_no_prob = 1 - capped yes`).  When the caller
supplies an explicit `model_no_prob` and no cap fires, the supplied value is
kept as-is and the sum can differ from 1 (see the counterexample). -/
theorem C1_complementarity (cfg : EdgeConfig) (now : ℤ) (m : Market)
    (p : ℚ) (q : Option ℚ) :
    (q = none →
      (analyze_edge cfg now m p q).model_yes_prob +
        (analyze_edge cfg now m p q).model_no_prob = 1) ∧
    ((cappedYes cfg m p).2 ≠ CapReason.none_ →
      (analyze_edge cfg now m p q).model_yes_prob +
        (analyze_edge cfg now m p q).model_no_prob = 1) := by
  obtain ⟨hy, hn⟩ := analyze_edge_model_fields cfg now m p q
  rw [hy, hn]
  constructor
  · rintro rfl
    unfold modelNo
    by_cases hc : (cappedYes cfg m p).2 = CapReason.none_
    · rw [if_pos hc, modelYes_of_none cfg m p hc]
      ring
    · rw [if_neg hc]
      ring
  · intro hc
    unfold modelNo
    rw [if_neg hc]
    ring

/-- Witness for C1 (amended), second branch: on a high-volume market the cap
fires, so even an inconsistent explicit `model_no_prob` is overwritten and the
sum is 1. -/
theorem C1_complementarity_witness :
    (analyze_edge {} 0
      { id := "m1", question := "will btc hit 150k this year?",
        outcomes := ["Yes", "No"], outcome_prices := [1/2, 1/2],
        volume := 200000 } (9/10) (some (3/10))).model_yes_prob +
    (analyze_edge {} 0
      { id := "m1", question := "will btc hit 150k this year?",
        outcomes := ["Yes", "No"], outcome_prices := [1/2, 1/2],
        volume := 200000 } (9/10) (some (3/10))).model_no_prob = 1 := by
  refine (C1_complementarity {} 0 _ (9/10) (some (3/10))).2 ?_
  have hsp : is_sports_market "will btc hit 150k this year?" = false := by decide
  have hcap : cappedYes {}
      { id := "m1", question := "will btc hit 150k this year?",
        outcomes := ["Yes", "No"], outcome_prices := [1/2, 1/2],
        volume := 200000 } (9/10) = (7/10, CapReason.highVolCap (9/10)) := by
    norm_num [cappedYes, apply_sanity_caps, capRule1, capRule2, capRule3,
      normProb, Market.yes_price, hsp, min_def, max_def]
  rw [hcap]
  simp

/-- Super Bowl test market: sports question at 60¢ with low volume, so no cap
fires on a low model probability but the guardrail gap is large. -/
def mkSB : Market :=
  { id := "c2", question := "will the chiefs win the super bowl?",
    outcomes := ["Yes", "No"], outcome_prices := [3/5, 2/5], volume := 1000 }

/-- **C2**: for every Super Bowl market, if after sanity capping the absolute
difference between the capped model YES probability and the market YES price
exceeds 0.20, `analyze_edge` short-circuits to NO_TRADE with the reason
`"Sports miscalibration guardrail triggered (Super Bowl)"`
(`Reason.superBowlGuardrail`), `confidence = "low"`, `is_sports = true`,
`was_capped = true`, regardless of the later threshold math. -/
theorem C2_super_bowl_guardrail (cfg : EdgeConfig) (now : ℤ) (m : Market)
    (p : ℚ) (q : Option ℚ)
    (hsb : is_super_bowl_market m.question = true)
    (hgap : (1/5 : ℚ) < |modelYes cfg m p - m.yes_price|) :
    (analyze_edge cfg now m p q).recommended_action = TradeAction.NO_TRADE ∧
    (analyze_edge cfg now m p q).reason = Reason.superBowlGuardrail ∧
    (analyze_edge cfg now m p q).confidence = "low" ∧
    (analyze_edge cfg now m p q).is_sports = true ∧
    (analyze_edge cfg now m p q).was_capped = true ∧
    (analyze_edge cfg now m p q).meets_threshold = false := by
  have h : is_super_bowl_market m.question = true ∧
      (1/5 : ℚ) < |modelYes cfg m p - m.yes_price| := ⟨hsb, hgap⟩
  simp only [analyze_edge]
  rw [if_pos h]
  exact ⟨rfl, rfl, rfl, rfl, rfl, rfl⟩

/-- Witness for C2: model 10% vs market 60% on a Super Bowl market (gap 0.50
after capping, which does not fire here). -/
theorem C2_super_bowl_guardrail_witness :
    (analyze_edge {} 0 mkSB (1/10) none).recommended_action = TradeAction.NO_TRADE ∧
    (analyze_edge {} 0 mkSB (1/10) none).reason = Reason.superBowlGuardrail ∧
    (analyze_edge {} 0 mkSB (1/10) none).confidence = "low" ∧
    (analyze_edge {} 0 mkSB (1/10) none).is_sports = true ∧
    (analyze_edge {} 0 mkSB (1/10) none).was_capped = true ∧
    (analyze_edge {} 0 mkSB (1/10) none).meets_threshold = false := by
  apply C2_super_bowl_guardrail
  · decide
  · have hsb : is_super_bowl_market mkSB.question = true := by decide
    have hsp : is_sports_market mkSB.question = true := by decide
    have hcap : cappedYes {} mkSB (1/10) = (1/10, CapReason.none_) := by
      norm_num [cappedYes, apply_sanity_caps, capRule1, capRule2, capRule3,
        normProb, mkSB, Market.yes_price, hsp, hsb, min_def]
    have hmy : modelYes {} mkSB (1/10) = 1/10 := by
      simp only [modelYes, hcap]
    rw [hmy, lt_abs]
    right
    norm_num [mkSB, Market.yes_price]

/-- On the non-guardrail path, `analyze_edge`'s decision fields come from
`edgeSelection`. -/
theorem analyze_edge_normal_fields (cfg : EdgeConfig) (now : ℤ) (m : Market)
    (p : ℚ) (q : Option ℚ)
    (hng : ¬(is_super_bowl_market m.question = true ∧
      (1/5 : ℚ) < |modelYes cfg m p - m.yes_price|))
    (hnv : ¬(m.volume > 500000 ∧
      max (yesEdge cfg m p) (noEdge cfg m p q) > cfg.max_edge_high_volume)) :
    (analyze_edge cfg now m p q).recommended_action = (edgeSelection cfg now m p q).1 ∧
    (analyze_edge cfg now m p q).meets_threshold =
      (if (edgeSelection cfg now m p q).1 = TradeAction.NO_TRADE then false else true) ∧
    (analyze_edge cfg now m p q).reason = (edgeSelection cfg now m p q).2.2.2.2 := by
  simp only [analyze_edge]
  rw [if_neg hng, if_neg hnv]
  exact ⟨rfl, rfl, rfl⟩

/-- The side selection rejects a short-term side whose ROI falls below the
minimum, without falling through to the other side. -/
theorem edgeSelection_roi_gate (cfg : EdgeConfig) (now : ℤ) (m : Market)
    (p : ℚ) (q : Option ℚ)
    (hshort : daysOr999 m now < cfg.short_term_days)
    (hcase :
      (yesEdge cfg m p - cfg.expected_slippage ≥ requiredEdge cfg m now ∧
        yesEdge cfg m p - cfg.expected_slippage > noEdge cfg m p q - cfg.expected_slippage ∧
        simpleRoi (modelYes cfg m p) m.yes_price < cfg.min_roi_short_term) ∨
      (¬(yesEdge cfg m p - cfg.expected_slippage ≥ requiredEdge cfg m now ∧
          yesEdge cfg m p - cfg.expected_slippage > noEdge cfg m p q - cfg.expected_slippage) ∧
        (noEdge cfg m p q - cfg.expected_slippage ≥ requiredEdge cfg m now ∧
          noEdge cfg m p q - cfg.expected_slippage > yesEdge cfg m p - cfg.expected_slippage) ∧
        simpleRoi (modelNo cfg m p q) m.no_price < cfg.min_roi_short_term)) :
    (edgeSelection cfg now m p q).1 = TradeAction.NO_TRADE ∧
    Reason.citesRoiShortfall (edgeSelection cfg now m p q).2.2.2.2 = true := by
  simp only [edgeSelection]
  rcases hcase with ⟨h1, h2, h3⟩ | ⟨hn1, ⟨h1, h2⟩, h3⟩
  · rw [if_pos ⟨h1, h2⟩, if_pos ⟨hshort, h3⟩]
    exact ⟨rfl, rfl⟩
  · rw [if_neg hn1, if_pos ⟨h1, h2⟩, if_pos ⟨hshort, h3⟩]
    exact ⟨rfl, rfl⟩

/-- **C4** (amended): on the non-guardrail path, when the market is
short-term *as the code computes it* (`days_to_resolution or 999 < 14`;
Python's `or` also coalesces a day count of 0 to 999, so a market resolving
today is not short-term) and one side's effective edge passes the required
threshold but that side's simple ROI is below `min_roi_short_term`, the
result is NO_TRADE (`meets_threshold = false`) with a reason citing the ROI
shortfall, and the other side is never selected as a fallback. -/
theorem C4_short_term_roi_gate (cfg : EdgeConfig) (now : ℤ) (m : Market)
    (p : ℚ) (q : Option ℚ)
    (hng : ¬(is_super_bowl_market m.question = true ∧
      (1/5 : ℚ) < |modelYes cfg m p - m.yes_price|))
    (hnv : ¬(m.volume > 500000 ∧
      max (yesEdge cfg m p) (noEdge cfg m p q) > cfg.max_edge_high_volume))
    (hshort : daysOr999 m now < cfg.short_term_days)
    (hcase :
      (yesEdge cfg m p - cfg.expected_slippage ≥ requiredEdge cfg m now ∧
        yesEdge cfg m p - cfg.expected_slippage > noEdge cfg m p q - cfg.expected_slippage ∧
        simpleRoi (modelYes cfg m p) m.yes_price < cfg.min_roi_short_term) ∨
      (¬(yesEdge cfg m p - cfg.expected_slippage ≥ requiredEdge cfg m now ∧
          yesEdge cfg m p - cfg.expected_slippage > noEdge cfg m p q - cfg.expected_slippage) ∧
        (noEdge cfg m p q - cfg.expected_slippage ≥ requiredEdge cfg m now ∧
          noEdge cfg m p q - cfg.expected_slippage > yesEdge cfg m p - cfg.expected_slippage) ∧
        simpleRoi (modelNo cfg m p q) m.no_price < cfg.min_roi_short_term)) :
    (analyze_edge cfg now m p q).recommended_action = TradeAction.NO_TRADE ∧
    (analyze_edge cfg now m p q).meets_threshold = false ∧
    Reason.citesRoiShortfall (analyze_edge cfg now m p q).reason = true := by
  obtain ⟨ha, hb, hc⟩ := analyze_edge_normal_fields cfg now m p q hng hnv
  obtain ⟨hs1, hs2⟩ := edgeSelection_roi_gate cfg now m p q hshort hcase
  refine ⟨ha.trans hs1, ?_, ?_⟩
  · rw [hb, hs1]
    rfl
  · rw [hc]
    exact hs2

/-- Short-term test market (resolves in 5 days from `now = 0`): 91¢ YES, so a
sure-looking model still has ROI below 10%. -/
def mkShort : Market :=
  { id := "c4w", question := "will agi arrive before 2031?",
    outcomes := ["Yes", "No"], outcome_prices := [91/100, 9/100],
    volume := 1000, end_date := some 5 }

/-- Same market but resolving today (`end_date = now`): the code's
`days_to_resolution or 999` coalesces the day count 0 to 999. -/
def mkToday : Market :=
  { id := "c4x", question := "will agi arrive before 2031?",
    outcomes := ["Yes", "No"], outcome_prices := [91/100, 9/100],
    volume := 1000, end_date := some 0 }

/-- Witness for C4: model 100% vs market 91¢, 5 days out — effective YES edge
8 ≥ 8 (short-term threshold) but ROI 900/91 < 10, so NO_TRADE with an ROI
reason. -/
theorem C4_short_term_roi_gate_witness :
    (analyze_edge {} 0 mkShort 1 none).recommended_action = TradeAction.NO_TRADE ∧
    (analyze_edge {} 0 mkShort 1 none).meets_threshold = false ∧
    Reason.citesRoiShortfall (analyze_edge {} 0 mkShort 1 none).reason = true := by
  have hsp : is_sports_market mkShort.question = false := by decide
  have hsb : is_super_bowl_market mkShort.question = false := by decide
  have hspl : is_sports_market "will agi arrive before 2031?" = false := by decide
  have hcap : cappedYes {} mkShort 1 = (1, CapReason.none_) := by
    norm_num [cappedYes, apply_sanity_caps, capRule1, capRule2, capRule3,
      normProb, mkShort, Market.yes_price, hspl]
  have hmy : modelYes {} mkShort 1 = 1 := by
    simp only [modelYes, hcap]
  have hmn : modelNo {} mkShort 1 none = 0 := by
    simp only [modelNo, hcap, normProb]
    norm_num
  have hye : yesEdge {} mkShort 1 = 9 := by
    simp only [yesEdge, hmy]
    norm_num [mkShort, Market.yes_price]
  have hne : noEdge {} mkShort 1 none = -9 := by
    simp only [noEdge, hmn]
    norm_num [mkShort, Market.no_price]
  have hdays : daysOr999 mkShort 0 = 5 := by decide
  have hreq : requiredEdge {} mkShort 0 = 8 := by
    simp only [requiredEdge, hsp, hdays]
    norm_num
  apply C4_short_term_roi_gate
  · rw [hsb]
    simp
  · rw [hye, hne]
    intro hcontra
    have := hcontra.1
    norm_num [mkShort] at this
  · rw [hdays]
    norm_num
  · left
    refine ⟨?_, ?_, ?_⟩
    · rw [hye, hreq]
      norm_num
    · rw [hye, hne]
      norm_num
    · rw [hmy]
      show simpleRoi 1 mkShort.yes_price < (10 : ℚ)
      norm_num [simpleRoi, mkShort, Market.yes_price]

/-- Counterexample to **C4** as stated: a market with `days_to_resolution = 0`
(< 14, so short-term per the claim) whose YES side passes the 8% short-term
threshold with ROI 900/91 < 10% — the claim demands NO_TRADE, but the code
coalesces the day count 0 to 999, skips the ROI gate, and returns BUY_YES. -/
theorem C4_counterexample :
    mkToday.days_to_resolution 0 = some 0 ∧
    ((0:ℤ) < 14) ∧
    yesEdge {} mkToday 1 - ({} : EdgeConfig).expected_slippage = 8 ∧
    ((8:ℚ) ≥ ({} : EdgeConfig).min_edge_short_term) ∧
    simpleRoi (modelYes {} mkToday 1) mkToday.yes_price < ({} : EdgeConfig).min_roi_short_term ∧
    (analyze_edge {} 0 mkToday 1 none).recommended_action = TradeAction.BUY_YES ∧
    (analyze_edge {} 0 mkToday 1 none).meets_threshold = true := by
  have hsp : is_sports_market mkToday.question = false := by decide
  have hsb : is_super_bowl_market mkToday.question = false := by decide
  have hspl : is_sports_market "will agi arrive before 2031?" = false := by decide
  have hcap : cappedYes {} mkToday 1 = (1, CapReason.none_) := by
    norm_num [cappedYes, apply_sanity_caps, capRule1, capRule2, capRule3,
      normProb, mkToday, Market.yes_price, hspl]
  have hmy : modelYes {} mkToday 1 = 1 := by
    simp only [modelYes, hcap]
  have hmn : modelNo {} mkToday 1 none = 0 := by
    simp only [modelNo, hcap, normProb]
    norm_num
  have hye : yesEdge {} mkToday 1 = 9 := by
    simp only [yesEdge, hmy]
    norm_num [mkToday, Market.yes_price]
  have hne : noEdge {} mkToday 1 none = -9 := by
    simp only [noEdge, hmn]
    norm_num [mkToday, Market.no_price]
  have hdays : daysOr999 mkToday 0 = 999 := by decide
  have hreq : requiredEdge {} mkToday 0 = 5 := by
    simp only [requiredEdge, hsp, hdays]
    norm_num
  have hng : ¬(is_super_bowl_market mkToday.question = true ∧
      (1/5 : ℚ) < |modelYes {} mkToday 1 - mkToday.yes_price|) := by
    rw [hsb]
    simp
  have hnv : ¬(mkToday.volume > 500000 ∧
      max (yesEdge {} mkToday 1) (noEdge {} mkToday 1 none) >
        ({} : EdgeConfig).max_edge_high_volume) := by
    intro hcontra
    have := hcontra.1
    norm_num [mkToday] at this
  obtain ⟨ha, hb, _⟩ := analyze_edge_normal_fields {} 0 mkToday 1 none hng hnv
  have hsel : (edgeSelection {} 0 mkToday 1 none).1 = TradeAction.BUY_YES := by
    simp only [edgeSelection, hye, hne, hreq, hdays]
    norm_num
  refine ⟨by decide, by norm_num, ?_, ?_, ?_, ?_, ?_⟩
  · rw [hye]
    norm_num
  · norm_num
  · rw [hmy]
    show simpleRoi 1 mkToday.yes_price < (10 : ℚ)
    norm_num [simpleRoi, mkToday, Market.yes_price]
  · rw [ha, hsel]
  · rw [hb, hsel]
    rfl

/-- Market with no resolution date and a clear model edge. -/
def mkNoDate : Market :=
  { id := "c6", question := "will agi arrive before 2032?",
    outcomes := ["Yes", "No"], outcome_prices := [3/5, 2/5], volume := 1000 }

/-- Counterexample to **C6** as stated: on a market with *no resolution date*
`analyze_edge` does not return a NO_TRADE-equivalent rejection recording the
defect — it analyzes normally and here recommends BUY_YES. -/
theorem C6_counterexample :
    mkNoDate.end_date = none ∧
    (analyze_edge {} 0 mkNoDate (3/4) none).recommended_action = TradeAction.BUY_YES ∧
    (analyze_edge {} 0 mkNoDate (3/4) none).meets_threshold = true := by
  have hsb : is_super_bowl_market mkNoDate.question = false := by decide
  have hspl : is_sports_market "will agi arrive before 2032?" = false := by decide
  have hcap : cappedYes {} mkNoDate (3/4) = (3/4, CapReason.none_) := by
    norm_num [cappedYes, apply_sanity_caps, capRule1, capRule2, capRule3,
      normProb, mkNoDate, Market.yes_price, hspl]
  have hmy : modelYes {} mkNoDate (3/4) = 3/4 := by
    simp only [modelYes, hcap]
  have hmn : modelNo {} mkNoDate (3/4) none = 1/4 := by
    simp only [modelNo, hcap, normProb]
    norm_num
  have hye : yesEdge {} mkNoDate (3/4) = 15 := by
    simp only [yesEdge, hmy]
    norm_num [mkNoDate, Market.yes_price]
  have hne : noEdge {} mkNoDate (3/4) none = -15 := by
    simp only [noEdge, hmn]
    norm_num [mkNoDate, Market.no_price]
  have hdays : daysOr999 mkNoDate 0 = 999 := by decide
  have hsp : is_sports_market mkNoDate.question = false := by decide
  have hreq : requiredEdge {} mkNoDate 0 = 5 := by
    simp only [requiredEdge, hsp, hdays]
    norm_num
  have hng : ¬(is_super_bowl_market mkNoDate.question = true ∧
      (1/5 : ℚ) < |modelYes {} mkNoDate (3/4) - mkNoDate.yes_price|) := by
    rw [hsb]
    simp
  have hnv : ¬(mkNoDate.volume > 500000 ∧
      max (yesEdge {} mkNoDate (3/4)) (noEdge {} mkNoDate (3/4) none) >
        ({} : EdgeConfig).max_edge_high_volume) := by
    intro hcontra
    have := hcontra.1
    norm_num [mkNoDate] at this
  obtain ⟨ha, hb, _⟩ := analyze_edge_normal_fields {} 0 mkNoDate (3/4) none hng hnv
  have hsel : (edgeSelection {} 0 mkNoDate (3/4) none).1 = TradeAction.BUY_YES := by
    simp only [edgeSelection, hye, hne, hreq, hdays]
    norm_num
  refine ⟨rfl, ?_, ?_⟩
  · rw [ha, hsel]
  · rw [hb, hsel]
    rfl

/-- **C6** (amended): `analyze_edge` never fails on defective records, but it
does not reject them either: with no resolution date the day count is
coalesced to 999, so the analysis is completely independent of the clock and
proceeds normally (possibly recommending a trade — see the counterexample);
with fewer than two outcome prices the missing prices are read as 0 by
`yes_price`/`no_price` and analysis also proceeds.  (Records with fewer than
two prices are instead rejected upstream, in the API client's parser.) -/
theorem C6_defective_market (cfg : EdgeConfig) (m : Market) (p : ℚ) (q : Option ℚ) :
    (m.end_date = none → ∀ now now' : ℤ,
      analyze_edge cfg now m p q = analyze_edge cfg now' m p q) ∧
    (m.outcome_prices.length < 2 → m.no_price = 0) ∧
    (m.outcome_prices = [] → m.yes_price = 0) := by
  refine ⟨?_, ?_, ?_⟩
  · intro hnone now now'
    have hd : ∀ t : ℤ, daysOr999 m t = 999 := by
      intro t
      simp [daysOr999, Market.days_to_resolution, hnone]
    simp only [analyze_edge, edgeSelection, requiredEdge, hd]
  · intro hlen
    rcases hm : m.outcome_prices with _ | ⟨x, _ | ⟨y, rest⟩⟩
    · simp [Market.no_price, hm]
    · simp [Market.no_price, hm]
    · rw [hm] at hlen
      simp at hlen
      omega
  · intro hnil
    simp [Market.yes_price, hnil]

/-- Market resolving exactly at the 14-day short-term boundary: one day later
the clock pushes it into short-term territory. -/
def mkClock : Market :=
  { id := "c9", question := "will agi arrive before 2033?",
    outcomes := ["Yes", "No"], outcome_prices := [1/2, 1/2],
    volume := 1000, end_date := some 14 }

/-- Counterexample to **C9** as stated: two calls with the identical market
and identical model probabilities, evaluated at different wall-clock times
(`days_to_resolution` reads `datetime.now`), return different actions:
BUY_YES at 14 days out, NO_TRADE at 13 days out (the 8% short-term threshold
kicks in).  `analyze_edge` is therefore not a pure function of its arguments
alone. -/
theorem C9_counterexample :
    (analyze_edge {} 0 mkClock (57/100) none).recommended_action = TradeAction.BUY_YES ∧
    (analyze_edge {} 1 mkClock (57/100) none).recommended_action = TradeAction.NO_TRADE := by
  have hsb : is_super_bowl_market mkClock.question = false := by decide
  have hspl : is_sports_market "will agi arrive before 2033?" = false := by decide
  have hcap : cappedYes {} mkClock (57/100) = (57/100, CapReason.none_) := by
    norm_num [cappedYes, apply_sanity_caps, capRule1, capRule2, capRule3,
      normProb, mkClock, Market.yes_price, hspl]
  have hmy : modelYes {} mkClock (57/100) = 57/100 := by
    simp only [modelYes, hcap]
  have hmn : modelNo {} mkClock (57/100) none = 43/100 := by
    simp only [modelNo, hcap, normProb]
    norm_num
  have hye : yesEdge {} mkClock (57/100) = 7 := by
    simp only [yesEdge, hmy]
    norm_num [mkClock, Market.yes_price]
  have hne : noEdge {} mkClock (57/100) none = -7 := by
    simp only [noEdge, hmn]
    norm_num [mkClock, Market.no_price]
  have hng : ¬(is_super_bowl_market mkClock.question = true ∧
      (1/5 : ℚ) < |modelYes {} mkClock (57/100) - mkClock.yes_price|) := by
    rw [hsb]
    simp
  have hnv : ¬(mkClock.volume > 500000 ∧
      max (yesEdge {} mkClock (57/100)) (noEdge {} mkClock (57/100) none) >
        ({} : EdgeConfig).max_edge_high_volume) := by
    intro hcontra
    have := hcontra.1
    norm_num [mkClock] at this
  have hsp : is_sports_market mkClock.question = false := by decide
  constructor
  · obtain ⟨ha, _, _⟩ := analyze_edge_normal_fields {} 0 mkClock (57/100) none hng hnv
    have hdays : daysOr999 mkClock 0 = 14 := by decide
    have hreq : requiredEdge {} mkClock 0 = 5 := by
      simp only [requiredEdge, hsp, hdays]
      norm_num
    have hsel : (edgeSelection {} 0 mkClock (57/100) none).1 = TradeAction.BUY_YES := by
      simp only [edgeSelection, hye, hne, hreq, hdays]
      norm_num
    rw [ha, hsel]
  · obtain ⟨ha, _, _⟩ := analyze_edge_normal_fields {} 1 mkClock (57/100) none hng hnv
    have hdays : daysOr999 mkClock 1 = 13 := by decide
    have hreq : requiredEdge {} mkClock 1 = 8 := by
      simp only [requiredEdge, hsp, hdays]
      norm_num
    have hsel : (edgeSelection {} 1 mkClock (57/100) none).1 = TradeAction.NO_TRADE := by
      simp only [edgeSelection, hye, hne, hreq, hdays]
      norm_num
    rw [ha, hsel]

/-- **C9** (amended): `analyze_edge` is deterministic given its arguments
*and* the evaluation time: whenever two calls observe the same
`days_to_resolution` (in particular, any two calls made at the same time),
identical inputs give identical outputs.  The only time dependence flows
through `days_to_resolution`. -/
theorem C9_deterministic_given_days (cfg : EdgeConfig) (now now' : ℤ)
    (m : Market) (p : ℚ) (q : Option ℚ)
    (h : m.days_to_resolution now = m.days_to_resolution now') :
    analyze_edge cfg now m p q = analyze_edge cfg now' m p q := by
  have hd : daysOr999 m now = daysOr999 m now' := by
    unfold daysOr999
    rw [h]
  simp only [analyze_edge, edgeSelection, requiredEdge, hd]

/-- Market whose end date is already past: every evaluation time sees a day
count of 0. -/
def mkPast : Market :=
  { id := "c9w", question := "will agi arrive before 2035?",
    outcomes := ["Yes", "No"], outcome_prices := [1/2, 1/2],
    volume := 1000, end_date := some (-5) }

/-- Witness for C9 (amended): two calls one day apart on an already-ended
market observe the same (clamped) day count and agree exactly. -/
theorem C9_deterministic_given_days_witness :
    analyze_edge {} 0 mkPast (1/2) none = analyze_edge {} 1 mkPast (1/2) none :=
  C9_deterministic_given_days {} 0 1 mkPast (1/2) none (by decide)

/-- Rounding to `ndigits = 2` cannot push a value past a bound that is itself
a multiple of 0.01. -/
theorem pyRound2_le (x c : ℚ) (k : ℤ) (hx : x ≤ c) (hc : c * 100 = (k : ℚ)) :
    pyRound x 2 ≤ c := by
  unfold pyRound
  have hpow : ((10 : ℚ) ^ (2 : ℕ)) = 100 := by norm_num
  rw [hpow]
  have hyk : x * 100 ≤ (k : ℚ) := by
    calc x * 100 ≤ c * 100 := by linarith
    _ = (k : ℚ) := hc
  have hnk : ⌊x * 100⌋ ≤ k := by
    have := Int.floor_le_floor hyk
    rwa [Int.floor_intCast] at this
  have hfl : (⌊x * 100⌋ : ℚ) ≤ x * 100 := Int.floor_le _
  have key : ∀ r : ℤ, r ≤ k → ((r : ℚ) / 100 ≤ c) := by
    intro r hr
    rw [div_le_iff₀ (by norm_num : (0:ℚ) < 100)]
    calc (r : ℚ) ≤ (k : ℚ) := by exact_mod_cast hr
    _ = c * 100 := hc.symm
  split_ifs with h1 h2 h3
  · exact key _ hnk
  · refine key _ ?_
    have hlt : (⌊x * 100⌋ : ℚ) < (k : ℚ) := by linarith
    have : ⌊x * 100⌋ < k := by exact_mod_cast hlt
    omega
  · exact key _ hnk
  · refine key _ ?_
    have hfrac : x * 100 - ⌊x * 100⌋ = 1/2 := by linarith
    have hlt : (⌊x * 100⌋ : ℚ) < (k : ℚ) := by linarith
    have : ⌊x * 100⌋ < k := by exact_mod_cast hlt
    omega

set_option maxHeartbeats 4000000 in
/-- **C7** (amended): under the default `PositionConfig`, every accepted
position (`should_trade = true`) has `position_percent` at most the cap the
code selects: 1% when the coalesced day count `days_to_resolution or 999` is
below 14, 2% otherwise.  (Python's `or` coalesces a day count of 0 to 999, so
a market resolving today gets the 2% standard cap — see the counterexample.) -/
theorem C7_position_cap (s : PositionSizer) (now : ℤ) (a : EdgeAnalysis)
    (hcfg : s.config = {})
    (ht : (calculate_position s now a).should_trade = true) :
    (calculate_position s now a).position_percent ≤
      (if daysOr999 a.market now < 14 then 1 else 2) := by
  obtain ⟨bk, cp, dc, scfg⟩ := s
  simp only at hcfg
  subst hcfg
  simp only [calculate_position] at ht ⊢
  split_ifs at ht ⊢
  all_goals first
    | (refine pyRound2_le _ _ 100 (min_le_right _ _) ?_ ; norm_num ; done)
    | (refine pyRound2_le _ _ 200 (min_le_right _ _) ?_ ; norm_num)

/-- Non-sports market resolving today (`end_date = now`). -/
def mkTodayPos : Market :=
  { id := "c7x", question := "will agi arrive before 2034?",
    outcomes := ["Yes", "No"], outcome_prices := [3/5, 2/5],
    volume := 1000, end_date := some 0 }

/-- An accepted BUY_YES analysis on the resolving-today market. -/
def aToday : EdgeAnalysis :=
  { market := mkTodayPos, model_yes_prob := 7/10, model_no_prob := 3/10,
    market_yes_price := 3/5, market_no_price := 2/5, yes_edge := 10,
    no_edge := -10, recommended_action := TradeAction.BUY_YES,
    edge_percent := 9, meets_threshold := true,
    reason := Reason.yesUndervalued 9 (7/10) (3/5) }

/-- An accepted BUY_YES analysis on a market with no end date. -/
def aStd : EdgeAnalysis :=
  { market := mkPlain, model_yes_prob := 7/10, model_no_prob := 3/10,
    market_yes_price := 1/2, market_no_price := 1/2, yes_edge := 20,
    no_edge := -20, recommended_action := TradeAction.BUY_YES,
    edge_percent := 19, meets_threshold := true,
    reason := Reason.yesUndervalued 19 (7/10) (1/2) }

/-- Witness for C7 (amended): a quarter-Kelly of 6.25% is clipped to the 2%
standard cap and accepted. -/
theorem C7_position_cap_witness :
    (calculate_position { bankroll := 1000 } 0 aStd).position_percent ≤
      (if daysOr999 aStd.market 0 < 14 then 1 else 2) :=
  C7_position_cap { bankroll := 1000 } 0 aStd rfl
    (by norm_num [calculate_position, aStd, mkPlain, daysOr999,
      Market.days_to_resolution, Option.map, oddsOf, kellyPercent,
      min_def, max_def])

/-- Counterexample to **C7** as stated: a market with `days_to_resolution = 0`
(< 14, so the claim demands the 1% short-term cap) is accepted with
`position_percent = 2` — the code's `or 999` coalescing hands it the standard
2% cap. -/
theorem C7_counterexample :
    mkTodayPos.days_to_resolution 0 = some 0 ∧ ((0:ℤ) < 14) ∧
    (calculate_position { bankroll := 1000 } 0 aToday).should_trade = true ∧
    (calculate_position { bankroll := 1000 } 0 aToday).position_percent = 2 ∧
    ¬((2:ℚ) ≤ 1) := by
  refine ⟨by decide, by norm_num, ?_, ?_, by norm_num⟩
  · norm_num [calculate_position, aToday, mkTodayPos, daysOr999,
      Market.days_to_resolution, Option.map, oddsOf, kellyPercent,
      min_def, max_def]
  · norm_num [calculate_position, aToday, mkTodayPos, daysOr999,
      Market.days_to_resolution, Option.map, oddsOf, kellyPercent,
      pyRound, min_def, max_def]

/-- **C8**: the guarded degenerate cases return 0 and never raise: the simple
ROI used by `analyze_edge` (`edgeSelection`) is 0 at a zero price, the odds
used by `calculate_position` are 0 at a zero price, the Kelly percentage is 0
for non-positive odds, and the expected ROI of `calculate_position` is 0 at a
zero entry price.  (All embedded functions are total, so no evaluation can
raise.) -/
theorem C8_degenerate_zero (p w odds : ℚ) (cfg : PositionConfig)
    (hodds : odds ≤ 0) :
    simpleRoi p 0 = 0 ∧ oddsOf 0 = 0 ∧ kellyPercent cfg w odds = 0 ∧
    expectedRoiOf p 0 = 0 := by
  refine ⟨?_, ?_, ?_, ?_⟩
  · simp [simpleRoi]
  · simp [oddsOf]
  · rw [kellyPercent, if_neg (not_lt.mpr hodds)]
  · simp [expectedRoiOf]

/-- Witness for C8 at concrete inputs (price 0, odds 0). -/
theorem C8_degenerate_zero_witness :
    simpleRoi (1/2) 0 = 0 ∧ oddsOf 0 = 0 ∧ kellyPercent {} (1/2) 0 = 0 ∧
    expectedRoiOf (1/2) 0 = 0 :=
  C8_degenerate_zero (1/2) (1/2) 0 {} (by norm_num)

/-- **C5** (amended): in `generate_strategy`, a bracket is recommended
BUY_YES exactly when `yes_edge ≥ 5.0` — the code never compares `yes_edge`
with `no_edge`, YES simply has precedence; BUY_NO is recommended exactly when
`yes_edge < 5.0` and `no_edge ≥ 5.0`; a bracket with both edges below 5.0 is
left out; and `recommended_trades` consists exactly of the qualifying trades
of the sorted brackets. -/
theorem C5_bracket_rule (fc : Option (List (String × ℚ))) (b : BracketMarket) :
    ((bracketEval fc b).2.map BracketTrade.action = some "BUY_YES" ↔
      5 ≤ bYesEdge fc b) ∧
    ((bracketEval fc b).2.map BracketTrade.action = some "BUY_NO" ↔
      (bYesEdge fc b < 5 ∧ 5 ≤ bNoEdge fc b)) ∧
    ((bracketEval fc b).2 = none ↔
      (bYesEdge fc b < 5 ∧ bNoEdge fc b < 5)) ∧
    (∀ (topic : String) (bs : List BracketMarket) (st : BracketStrategy),
      generate_strategy topic bs fc = some st →
      st.recommended_trades =
        ((List.insertionSort (fun x y => bracketKeyLe x y = true) bs).map
          (bracketEval fc)).filterMap Prod.snd) := by
  have hBYne : ("BUY_YES" : String) ≠ "BUY_NO" := by decide
  have hBNne : ("BUY_NO" : String) ≠ "BUY_YES" := by decide
  refine ⟨?_, ?_, ?_, ?_⟩
  · simp only [bracketEval]
    split_ifs with h1 h2 <;> simp_all [not_le]
  · simp only [bracketEval]
    split_ifs with h1 h2 <;> simp_all [not_le, hBNne]
  · simp only [bracketEval]
    split_ifs with h1 h2 <;> simp_all [not_le]
  · intro topic bs st hst
    simp only [generate_strategy] at hst
    split_ifs at hst
    all_goals first
      | exact Option.noConfusion hst
      | (obtain rfl : _ = st := Option.some.inj hst
         rfl)

/-- Underlying market for the $100-200b bracket (prices intentionally not
summing to 1, as bracket markets' books often do not). -/
def mkBr1 : Market :=
  { id := "br1", question := "us tariff revenue in 2025?",
    outcomes := ["Yes", "No"], outcome_prices := [3/10, 1/5], volume := 1000 }

/-- Underlying market for the $200-300b bracket. -/
def mkBr2 : Market :=
  { id := "br2", question := "us tariff revenue in 2025?",
    outcomes := ["Yes", "No"], outcome_prices := [1/2, 1/2], volume := 1000 }

/-- The $100-200b bracket: YES 30¢, NO 20¢. -/
def bLow : BracketMarket :=
  { market := mkBr1, bracket_label := "$100-200b", lower_bound := some 100,
    upper_bound := some 200, yes_price := 3/10, no_price := 1/5 }

/-- The $200-300b bracket: YES 50¢, NO 50¢ (no edge either way). -/
def bHigh : BracketMarket :=
  { market := mkBr2, bracket_label := "$200-300b", lower_bound := some 200,
    upper_bound := some 300, yes_price := 1/2, no_price := 1/2 }

/-- Model forecast: 40% on the $100-200b bracket. -/
def brForecast : List (String × ℚ) := [("$100-200b", 2/5)]

/-- The updated $100-200b bracket after `generate_strategy`'s loop. -/
def bLowDone : BracketMarket :=
  { market := mkBr1, bracket_label := "$100-200b", lower_bound := some 100,
    upper_bound := some 200, yes_price := 3/10, no_price := 1/5,
    model_prob := some (2/5), recommended_action := some "BUY_YES",
    edge_percent := 10 }

/-- The BUY_YES trade emitted for the $100-200b bracket. -/
def trLow : BracketTrade :=
  { bracket := bLowDone, action := "BUY_YES", price := 3/10, edge := 10,
    cost := 30, payout := 100 }

/-- Counterexample to **C5** as stated: on the $100-200b bracket
`yes_edge = 10` and `no_edge = 40`, so `yes_edge` is *not* the larger of the
two — per the claim the bracket must not be recommended BUY_YES — yet
`generate_strategy` recommends BUY_YES (the code checks YES first and never
compares the two edges). -/
theorem C5_counterexample :
    bYesEdge (some brForecast) bLow = 10 ∧
    bNoEdge (some brForecast) bLow = 40 ∧
    ¬(bNoEdge (some brForecast) bLow ≤ bYesEdge (some brForecast) bLow) ∧
    (generate_strategy "us tariff revenue" [bLow, bHigh] (some brForecast)).map
      (fun st => st.recommended_trades.map BracketTrade.action) =
      some ["BUY_YES"] := by
  have hl1 : bModelProb (some brForecast) bLow = 2/5 := rfl
  have hl2 : bModelProb (some brForecast) bHigh = 1/2 := rfl
  have hy1 : bYesEdge (some brForecast) bLow = 10 := by
    rw [bYesEdge, hl1]
    norm_num [bLow]
  have hn1 : bNoEdge (some brForecast) bLow = 40 := by
    rw [bNoEdge, hl1]
    norm_num [bLow]
  have hy2 : bYesEdge (some brForecast) bHigh = 0 := by
    rw [bYesEdge, hl2]
    norm_num [bHigh]
  have hn2 : bNoEdge (some brForecast) bHigh = 0 := by
    rw [bNoEdge, hl2]
    norm_num [bHigh]
  have e1 : bracketEval (some brForecast) bLow = (bLowDone, some trLow) := by
    rw [bracketEval]
    rw [if_pos (by rw [hy1] ; norm_num)]
    rw [hl1, hy1]
    simp only [bLow, bLowDone, trLow]
    norm_num
  have e2 : bracketEval (some brForecast) bHigh =
      ({ bHigh with model_prob := some (1/2) }, none) := by
    rw [bracketEval]
    rw [if_neg (by rw [hy2] ; norm_num), if_neg (by rw [hn2] ; norm_num)]
    rw [hl2]
  have hsort : List.insertionSort (fun x y => bracketKeyLe x y = true)
      [bLow, bHigh] = [bLow, bHigh] := by
    have hle : bracketKeyLe bLow bHigh = true := by decide
    simp [List.insertionSort, List.orderedInsert, hle]
  refine ⟨hy1, hn1, by rw [hy1, hn1] ; norm_num, ?_⟩
  simp only [generate_strategy, hsort, List.map_cons, List.map_nil, e1, e2,
    List.filterMap_cons, List.filterMap_nil]
  norm_num [trLow]
